import Mathlib

/-!
Verification of the red-light idle-emissions simulator (`src/Py.py`).

The simulator keeps per-session gas levels (`level_co2`, `level_co`,
`level_o2`) together with fixed baselines and two control inputs
(`is_red`, `vehicles`).  `update_state` advances the levels by an
elapsed-time delta `dt`; `scaled_bar` maps a level to a bounded display
value; `init_state` initialises the session state once.

Machine floating-point arithmetic is modelled by exact rationals for the
state-update logic and by real numbers for the exponential display
transform.
-/

namespace Emissions

/-- Tuning constant `CO2_PER_VEH = 2.5` from `Py.py`. -/
def CO2_PER_VEH : ℚ := 2.5

/-- Tuning constant `CO_PER_VEH = 1.6` from `Py.py`. -/
def CO_PER_VEH : ℚ := 1.6

/-- Tuning constant `O2_CONSUME_PER_VEH = 0.8` from `Py.py`. -/
def O2_CONSUME_PER_VEH : ℚ := 0.8

/-- Tuning constant `DECAY_CO2 = 1.1` from `Py.py`. -/
def DECAY_CO2 : ℚ := 1.1

/-- Tuning constant `DECAY_CO = 0.9` from `Py.py`. -/
def DECAY_CO : ℚ := 0.9

/-- Tuning constant `RECOVER_O2 = 0.8` from `Py.py`. -/
def RECOVER_O2 : ℚ := 0.8

/-- Tuning constant `SLOW_DECAY = 0.05` from `Py.py`. -/
def SLOW_DECAY : ℚ := 0.05

/-- `clamp(x, lo, hi) = max(lo, min(hi, x))` from `Py.py`. -/
def clamp {α : Type} [LinearOrder α] (x lo hi : α) : α :=
  max lo (min hi x)

/-- The session state of the simulator (`st.session_state` fields set by
`init_state` and read or written by `update_state`).  The wall-clock
timestamp `prev_ts` is not modelled: no claim concerns real time. -/
structure SimState where
  initialized : Bool
  is_red : Bool
  vehicles : ℕ
  level_co2 : ℚ
  level_co : ℚ
  level_o2 : ℚ
  baseline_co2 : ℚ
  baseline_co : ℚ
  baseline_o2 : ℚ
  deriving Repr, DecidableEq

/-- `init_state` from `Py.py`: a no-op when the state is already
initialised, otherwise sets every field to its default. -/
def init_state (s : SimState) : SimState :=
  if s.initialized then s
  else
    { initialized := true
      is_red := true
      vehicles := 12
      level_co2 := 0
      level_co := 0
      level_o2 := 100
      baseline_co2 := 0
      baseline_co := 0
      baseline_o2 := 100 }

/-- The inner helper `decay(v, b, r)` of the green branch of
`update_state` in `Py.py` (with `dt` passed explicitly). -/
def decay (v b r dt : ℚ) : ℚ :=
  if v ≤ b then b else max b (v - r * dt)

/-- `update_state(dt)` from `Py.py`: the red branch accumulates
pollutants, consumes oxygen (clamped to `[0,100]`) and then applies the
slow settling; the green branch decays pollutants toward their baselines
and recovers oxygen (clamped to `[0,100]`). -/
def update_state (s : SimState) (dt : ℚ) : SimState :=
  if s.is_red then
    let co2₁ := s.level_co2 + (s.vehicles : ℚ) * CO2_PER_VEH * dt
    let co₁ := s.level_co + (s.vehicles : ℚ) * CO_PER_VEH * dt
    let o2₁ := clamp (s.level_o2 - (s.vehicles : ℚ) * O2_CONSUME_PER_VEH * dt) 0 100
    { s with
      level_co2 := max s.baseline_co2 (co2₁ - SLOW_DECAY * dt)
      level_co := max s.baseline_co (co₁ - SLOW_DECAY * dt)
      level_o2 := o2₁ }
  else
    { s with
      level_co2 := decay s.level_co2 s.baseline_co2 (DECAY_CO2 * (1 + (s.vehicles : ℚ) * 0.02)) dt
      level_co := decay s.level_co s.baseline_co (DECAY_CO * (1 + (s.vehicles : ℚ) * 0.02)) dt
      level_o2 := clamp (s.level_o2 + RECOVER_O2 * dt * (1 + (s.vehicles : ℚ) * 0.05)) 0 100 }

/-- The gas-kind argument of `scaled_bar` (the strings `"CO2"`, `"CO"`,
`"Fresh O2"` in `Py.py`). -/
inductive Gas where
  | co2
  | co
  | freshO2
  deriving Repr, DecidableEq

/-- `scaled_bar(value, gas)` from `Py.py`: the identity clamped to
`[0,100]` for fresh oxygen, and the saturating transform
`clamp(100 * (1 - exp(-value/40)), 0, 100)` for the pollutants. -/
noncomputable def scaled_bar (value : ℝ) (gas : Gas) : ℝ :=
  match gas with
  | Gas.freshO2 => clamp value 0 100
  | _ => clamp (100 * (1 - Real.exp (-value / 40))) 0 100

/-- The `Step 0.2s` button handler in `Py.py`: a single
`update_state(0.2)` call. -/
def stepCommand (s : SimState) : SimState :=
  update_state s (1/5)

/-- Modelled from the spec (§4.1 transition rule of `advance(state, dt)`),
for comparison with `update_state` from the source: red branch
accumulates `vehicleCount * rate * dt` per pollutant, clamps oxygen, then
applies the slow settling toward the baselines; green branch applies the
one-sided linear decay `b if v ≤ b else max(b, v - r*dt)` and recovers
oxygen clamped to `[0,100]`. -/
def advanceSpec (s : SimState) (dt : ℚ) : SimState :=
  if s.is_red then
    { s with
      level_co2 := max s.baseline_co2
        (s.level_co2 + (s.vehicles : ℚ) * 2.5 * dt - 0.05 * dt)
      level_co := max s.baseline_co
        (s.level_co + (s.vehicles : ℚ) * 1.6 * dt - 0.05 * dt)
      level_o2 := max 0 (min 100 (s.level_o2 - (s.vehicles : ℚ) * 0.8 * dt)) }
  else
    { s with
      level_co2 :=
        if s.level_co2 ≤ s.baseline_co2 then s.baseline_co2
        else max s.baseline_co2
          (s.level_co2 - 1.1 * (1 + (s.vehicles : ℚ) * 0.02) * dt)
      level_co :=
        if s.level_co ≤ s.baseline_co then s.baseline_co
        else max s.baseline_co
          (s.level_co - 0.9 * (1 + (s.vehicles : ℚ) * 0.02) * dt)
      level_o2 := max 0 (min 100 (s.level_o2 + 0.8 * dt * (1 + (s.vehicles : ℚ) * 0.05))) }

/-! ## Helper lemmas shared by the verification below -/

theorem clamp_nonneg (x hi : ℚ) : 0 ≤ clamp x 0 hi :=
  le_max_left _ _

theorem clamp_le_hi (x hi : ℚ) (h : 0 ≤ hi) : clamp x 0 hi ≤ hi :=
  max_le h (min_le_left _ _)

theorem update_state_is_red (s : SimState) (dt : ℚ) :
    (update_state s dt).is_red = s.is_red := by
  by_cases h : s.is_red <;> simp [update_state, h]

theorem update_state_vehicles (s : SimState) (dt : ℚ) :
    (update_state s dt).vehicles = s.vehicles := by
  by_cases h : s.is_red <;> simp [update_state, h]

theorem update_state_baseline_co2 (s : SimState) (dt : ℚ) :
    (update_state s dt).baseline_co2 = s.baseline_co2 := by
  by_cases h : s.is_red <;> simp [update_state, h]

theorem update_state_baseline_co (s : SimState) (dt : ℚ) :
    (update_state s dt).baseline_co = s.baseline_co := by
  by_cases h : s.is_red <;> simp [update_state, h]

theorem update_state_baseline_o2 (s : SimState) (dt : ℚ) :
    (update_state s dt).baseline_o2 = s.baseline_o2 := by
  by_cases h : s.is_red <;> simp [update_state, h]

theorem decay_le_of_nonneg_base (v b r dt : ℚ) (hb : b ≤ v) (hr : 0 ≤ r) (hdt : 0 ≤ dt) :
    decay v b r dt ≤ v := by
  unfold decay
  split
  · assumption
  · exact max_le hb (by nlinarith)

theorem base_le_decay (v b r dt : ℚ) : b ≤ decay v b r dt := by
  unfold decay
  split
  · exact le_refl b
  · exact le_max_left _ _

theorem update_state_co2_nonneg (s : SimState) (dt : ℚ) (hb : s.baseline_co2 = 0) :
    0 ≤ (update_state s dt).level_co2 := by
  by_cases h : s.is_red <;> simp [update_state, h]
  · exact Or.inl (le_of_eq hb.symm)
  · exact hb ▸ base_le_decay _ _ _ _

theorem update_state_co_nonneg (s : SimState) (dt : ℚ) (hb : s.baseline_co = 0) :
    0 ≤ (update_state s dt).level_co := by
  by_cases h : s.is_red <;> simp [update_state, h]
  · exact Or.inl (le_of_eq hb.symm)
  · exact hb ▸ base_le_decay _ _ _ _

theorem update_state_o2_nonneg (s : SimState) (dt : ℚ) :
    0 ≤ (update_state s dt).level_o2 := by
  by_cases h : s.is_red <;> simp [update_state, h] <;> exact clamp_nonneg _ _

theorem update_state_o2_le_100 (s : SimState) (dt : ℚ) :
    (update_state s dt).level_o2 ≤ 100 := by
  by_cases h : s.is_red <;> simp [update_state, h] <;>
    exact clamp_le_hi _ _ (by norm_num)

theorem clamp_eq_self {α : Type} [LinearOrder α] (x lo hi : α) (hl : lo ≤ x) (hh : x ≤ hi) :
    clamp x lo hi = x := by
  unfold clamp
  rw [min_eq_right hh, max_eq_right hl]

theorem decay_dt_zero (v b r : ℚ) (h : b ≤ v) : decay v b r 0 = v := by
  unfold decay
  split
  · exact le_antisymm h (by assumption)
  · simp [max_eq_right h]

/-! ## Claim theorems -/

/-- C9: `update_state` modifies only the three level fields; `is_red`,
`vehicles` and the three baselines are unchanged by the call, in both the
red and the green branch. -/
theorem advance_frame (s : SimState) (dt : ℚ) :
    (update_state s dt).is_red = s.is_red ∧
    (update_state s dt).vehicles = s.vehicles ∧
    (update_state s dt).baseline_co2 = s.baseline_co2 ∧
    (update_state s dt).baseline_co = s.baseline_co ∧
    (update_state s dt).baseline_o2 = s.baseline_o2 :=
  ⟨update_state_is_red s dt, update_state_vehicles s dt,
    update_state_baseline_co2 s dt, update_state_baseline_co s dt,
    update_state_baseline_o2 s dt⟩

/-- C1: from any state satisfying the data-model invariants (`o2Level` in
`[0,100]`, pollutant levels at least their zero baselines) with at most 99
vehicles, any finite sequence of `update_state` calls with each `dt` in
`[0, 0.25]` preserves `o2Level ∈ [0,100]`, `co2Level ≥ 0` and
`coLevel ≥ 0`. -/
theorem advance_seq_preserves_invariants (dts : List ℚ) (s : SimState)
    (hb2 : s.baseline_co2 = 0) (hbco : s.baseline_co = 0)
    (hveh : s.vehicles ≤ 99)
    (ho2l : 0 ≤ s.level_o2) (ho2u : s.level_o2 ≤ 100)
    (hco2 : 0 ≤ s.level_co2) (hco : 0 ≤ s.level_co)
    (hdt : ∀ dt ∈ dts, 0 ≤ dt ∧ dt ≤ (1/4 : ℚ)) :
    0 ≤ (dts.foldl update_state s).level_o2 ∧
    (dts.foldl update_state s).level_o2 ≤ 100 ∧
    0 ≤ (dts.foldl update_state s).level_co2 ∧
    0 ≤ (dts.foldl update_state s).level_co := by
  induction dts generalizing s with
  | nil => exact ⟨ho2l, ho2u, hco2, hco⟩
  | cons d rest ih =>
    simp only [List.foldl_cons]
    exact ih (update_state s d)
      ((update_state_baseline_co2 s d).trans hb2)
      ((update_state_baseline_co s d).trans hbco)
      ((update_state_vehicles s d) ▸ hveh)
      (update_state_o2_nonneg s d) (update_state_o2_le_100 s d)
      (update_state_co2_nonneg s d hb2)
      (update_state_co_nonneg s d hbco)
      (fun dt hmem => hdt dt (List.mem_cons_of_mem _ hmem))

/-- Witness for C1 at the initial session state and the step sequence
`[0.1, 0.2, 0.25]`. -/
theorem advance_seq_preserves_invariants_witness :
    0 ≤ (([(1/10 : ℚ), 1/5, 1/4].foldl update_state
      { initialized := true, is_red := true, vehicles := 12, level_co2 := 0,
        level_co := 0, level_o2 := 100, baseline_co2 := 0, baseline_co := 0,
        baseline_o2 := 100 }).level_o2) :=
  (advance_seq_preserves_invariants [(1/10 : ℚ), 1/5, 1/4] _
    rfl rfl (by norm_num) (by norm_num) (by norm_num) (by norm_num) (by norm_num)
    (by intro dt hdt; fin_cases hdt <;> norm_num)).1

/-- C7: with zero elapsed time, `update_state` leaves all three levels
unchanged on every state satisfying the data-model invariants, in either
phase. -/
theorem advance_zero_noop (s : SimState)
    (hb2 : s.baseline_co2 = 0) (hbco : s.baseline_co = 0)
    (hco2 : 0 ≤ s.level_co2) (hco : 0 ≤ s.level_co)
    (ho2l : 0 ≤ s.level_o2) (ho2u : s.level_o2 ≤ 100) :
    (update_state s 0).level_co2 = s.level_co2 ∧
    (update_state s 0).level_co = s.level_co ∧
    (update_state s 0).level_o2 = s.level_o2 := by
  by_cases h : s.is_red <;> simp only [update_state, h, if_true, if_false]
  · refine ⟨?_, ?_, ?_⟩
    · rw [hb2]; ring_nf; exact max_eq_right hco2
    · rw [hbco]; ring_nf; exact max_eq_right hco
    · ring_nf; exact clamp_eq_self _ _ _ ho2l ho2u
  · refine ⟨?_, ?_, ?_⟩
    · exact decay_dt_zero _ _ _ (hb2 ▸ hco2)
    · exact decay_dt_zero _ _ _ (hbco ▸ hco)
    · ring_nf; exact clamp_eq_self _ _ _ ho2l ho2u

/-- Witness for C7 at the initial session state. -/
theorem advance_zero_noop_witness :
    (update_state
      { initialized := true, is_red := true, vehicles := 12,
        level_co2 := 0, level_co := 0, level_o2 := 100, baseline_co2 := 0,
        baseline_co := 0, baseline_o2 := 100 } 0).level_co2 = 0 :=
  (advance_zero_noop _ rfl rfl (by norm_num) (by norm_num) (by norm_num)
    (by norm_num)).1

/-- C2: from `(signalIsRed = true, vehicleCount = 12, co2Level = 0,
coLevel = 0, o2Level = 100)`, one call with `dt = 1.0` yields exactly
`co2Level = 29.95`, `coLevel = 19.15`, `o2Level = 90.4`; after switching
the signal to green, one further call with `dt = 1.0` yields exactly
`co2Level = 28.586` and `o2Level = 91.68`. -/
theorem scenario_red_then_green :
    ((update_state
        { initialized := true, is_red := true, vehicles := 12,
          level_co2 := 0, level_co := 0, level_o2 := 100, baseline_co2 := 0,
          baseline_co := 0, baseline_o2 := 100 } 1).level_co2 = 29.95) ∧
    ((update_state
        { initialized := true, is_red := true, vehicles := 12,
          level_co2 := 0, level_co := 0, level_o2 := 100, baseline_co2 := 0,
          baseline_co := 0, baseline_o2 := 100 } 1).level_co = 19.15) ∧
    ((update_state
        { initialized := true, is_red := true, vehicles := 12,
          level_co2 := 0, level_co := 0, level_o2 := 100, baseline_co2 := 0,
          baseline_co := 0, baseline_o2 := 100 } 1).level_o2 = 90.4) ∧
    ((update_state
        { initialized := true, is_red := false, vehicles := 12,
          level_co2 := 29.95, level_co := 19.15, level_o2 := 90.4,
          baseline_co2 := 0, baseline_co := 0,
          baseline_o2 := 100 } 1).level_co2 = 28.586) ∧
    ((update_state
        { initialized := true, is_red := false, vehicles := 12,
          level_co2 := 29.95, level_co := 19.15, level_o2 := 90.4,
          baseline_co2 := 0, baseline_co := 0,
          baseline_o2 := 100 } 1).level_o2 = 91.68) := by
  norm_num [update_state, clamp, decay, CO2_PER_VEH, CO_PER_VEH,
    O2_CONSUME_PER_VEH, DECAY_CO2, DECAY_CO, RECOVER_O2, SLOW_DECAY]

/-- C3 counterexample: the source has no unconditional `reset`; its
`init_state` is a no-op on an already-initialised state, so a state with
`co2Level = 5` keeps `co2Level = 5` instead of returning to 0. -/
theorem reset_counterexample :
    (init_state
      { initialized := true, is_red := true, vehicles := 12,
        level_co2 := 5, level_co := 0, level_o2 := 100, baseline_co2 := 0,
        baseline_co := 0, baseline_o2 := 100 }).level_co2 ≠ 0 := by
  norm_num [init_state]

/-- C3 (amended): `init_state` leaves an already-initialised state
completely unchanged; on an uninitialised state it sets `co2Level = 0`,
`coLevel = 0`, `o2Level = 100`, and also sets `signalIsRed = true`,
`vehicleCount = 12`, the baselines `(0, 0, 100)` and the initialised
flag. -/
theorem init_state_spec (s : SimState) :
    (s.initialized = true → init_state s = s) ∧
    (s.initialized = false →
      (init_state s).level_co2 = 0 ∧ (init_state s).level_co = 0 ∧
      (init_state s).level_o2 = 100 ∧ (init_state s).is_red = true ∧
      (init_state s).vehicles = 12 ∧ (init_state s).baseline_co2 = 0 ∧
      (init_state s).baseline_co = 0 ∧ (init_state s).baseline_o2 = 100 ∧
      (init_state s).initialized = true) := by
  constructor
  · intro h
    simp [init_state, h]
  · intro h
    simp [init_state, h]

/-- Witness for the amended C3 at concrete initialised and uninitialised
states. -/
theorem init_state_spec_witness :
    (init_state
      { initialized := false, is_red := false, vehicles := 3,
        level_co2 := 7, level_co := 7, level_o2 := 7, baseline_co2 := 0,
        baseline_co := 0, baseline_o2 := 100 }).level_co2 = 0 ∧
    init_state
      { initialized := true, is_red := false, vehicles := 3,
        level_co2 := 7, level_co := 7, level_o2 := 7, baseline_co2 := 0,
        baseline_co := 0, baseline_o2 := 100 } =
      { initialized := true, is_red := false, vehicles := 3,
        level_co2 := 7, level_co := 7, level_o2 := 7, baseline_co2 := 0,
        baseline_co := 0, baseline_o2 := 100 } :=
  ⟨((init_state_spec _).2 rfl).1, (init_state_spec _).1 rfl⟩

theorem scaled_bar_co2_unclamped (v : ℝ) (hv : 0 ≤ v) :
    scaled_bar v Gas.co2 = 100 * (1 - Real.exp (-v / 40)) := by
  have h1 : Real.exp (-v / 40) ≤ 1 := Real.exp_le_one_iff.mpr (by linarith)
  have h2 : 0 < Real.exp (-v / 40) := Real.exp_pos _
  show clamp (100 * (1 - Real.exp (-v / 40))) 0 100 = _
  exact clamp_eq_self _ _ _ (by nlinarith) (by nlinarith)

/-- C8: the `Step 0.2s` button handler (a forced single step with fixed
`dt = 0.2`) is behaviorally identical to one call of the spec's
`advance` transition rule at `dt = 0.2`: from every state both produce
the same resulting state, hence the same three levels. -/
theorem step_command_refines_spec (s : SimState) :
    stepCommand s = advanceSpec s (1/5) := by
  by_cases h : s.is_red <;>
    simp only [stepCommand, update_state, advanceSpec, decay, clamp, h,
      if_true, if_false, CO2_PER_VEH, CO_PER_VEH, O2_CONSUME_PER_VEH,
      DECAY_CO2, DECAY_CO, RECOVER_O2, SLOW_DECAY]

/-- C6: for the CO2 gas kind, `scaled_bar` equals the clamped saturating
transform `clamp(100 * (1 - exp(-v/40)), 0, 100)`, is strictly increasing
on nonnegative inputs, stays strictly below 100 on every finite input,
and maps 0 to 0. -/
theorem scaled_bar_co2_saturating (v w : ℝ) (hv : 0 ≤ v) (hvw : v < w) :
    scaled_bar v Gas.co2 = clamp (100 * (1 - Real.exp (-v / 40))) 0 100 ∧
    scaled_bar v Gas.co2 < scaled_bar w Gas.co2 ∧
    scaled_bar v Gas.co2 < 100 ∧ scaled_bar w Gas.co2 < 100 ∧
    scaled_bar 0 Gas.co2 = 0 := by
  have hw : 0 ≤ w := le_of_lt (lt_of_le_of_lt hv hvw)
  have hev := Real.exp_pos (-v / 40)
  have hew := Real.exp_pos (-w / 40)
  have hlt : Real.exp (-w / 40) < Real.exp (-v / 40) :=
    Real.exp_lt_exp.mpr (by linarith)
  refine ⟨rfl, ?_, ?_, ?_, ?_⟩
  · rw [scaled_bar_co2_unclamped v hv, scaled_bar_co2_unclamped w hw]
    linarith
  · rw [scaled_bar_co2_unclamped v hv]; linarith
  · rw [scaled_bar_co2_unclamped w hw]; linarith
  · rw [scaled_bar_co2_unclamped 0 le_rfl]
    simp [Real.exp_zero]

/-- Witness for C6 at the inputs `v = 0` and `w = 1`. -/
theorem scaled_bar_co2_saturating_witness :
    scaled_bar 0 Gas.co2 < scaled_bar 1 Gas.co2 ∧ scaled_bar 0 Gas.co2 = 0 :=
  ⟨(scaled_bar_co2_saturating 0 1 le_rfl (by norm_num)).2.1,
    (scaled_bar_co2_saturating 0 1 le_rfl (by norm_num)).2.2.2.2⟩

/-- C10: every nonpositive input is displayed as exactly 0, for all three
gas kinds: the clamps floor the otherwise nonpositive transform (and the
nonpositive identity for fresh oxygen) to 0. -/
theorem scaled_bar_nonpos_eq_zero (v : ℝ) (hv : v ≤ 0) (gas : Gas) :
    scaled_bar v gas = 0 := by
  have h1 : 1 ≤ Real.exp (-v / 40) := Real.one_le_exp (by linarith)
  have key : clamp (100 * (1 - Real.exp (-v / 40))) 0 100 = 0 := by
    unfold clamp
    rw [min_eq_right (by nlinarith), max_eq_left (by nlinarith)]
  cases gas
  · exact key
  · exact key
  · show clamp v 0 100 = 0
    unfold clamp
    rw [min_eq_right (by linarith), max_eq_left hv]

/-- Witness for C10 at the input `v = -1` and the CO2 gas kind. -/
theorem scaled_bar_nonpos_eq_zero_witness :
    scaled_bar (-1) Gas.co2 = 0 :=
  scaled_bar_nonpos_eq_zero (-1) (by norm_num) Gas.co2

theorem update_state_green_co2 (t : SimState) (hg : t.is_red = false) :
    (update_state t (1/10)).level_co2 =
      decay t.level_co2 t.baseline_co2
        (DECAY_CO2 * (1 + (t.vehicles : ℚ) * 0.02)) (1/10) := by
  simp [update_state, hg]

theorem green_iter_fixed (s : SimState) (k : ℕ) :
    ((fun t => update_state t (1/10))^[k] s).is_red = s.is_red ∧
    ((fun t => update_state t (1/10))^[k] s).baseline_co2 = s.baseline_co2 ∧
    ((fun t => update_state t (1/10))^[k] s).vehicles = s.vehicles := by
  induction k with
  | zero => exact ⟨rfl, rfl, rfl⟩
  | succ k ih =>
    rw [Function.iterate_succ_apply']
    exact ⟨(update_state_is_red _ _).trans ih.1,
      (update_state_baseline_co2 _ _).trans ih.2.1,
      (update_state_vehicles _ _).trans ih.2.2⟩

theorem green_step_co2_le (t : SimState) (hg : t.is_red = false)
    (hb : t.baseline_co2 = 0) (h0 : 0 ≤ t.level_co2) :
    (update_state t (1/10)).level_co2 ≤ t.level_co2 := by
  rw [update_state_green_co2 t hg, hb]
  have hn : (0 : ℚ) ≤ (t.vehicles : ℚ) := Nat.cast_nonneg _
  refine decay_le_of_nonneg_base _ _ _ _ h0 ?_ (by norm_num)
  unfold DECAY_CO2
  nlinarith

theorem green_step_co2_lt (t : SimState) (hg : t.is_red = false)
    (hb : t.baseline_co2 = 0) (hpos : 0 < t.level_co2) :
    (update_state t (1/10)).level_co2 < t.level_co2 := by
  rw [update_state_green_co2 t hg, hb]
  unfold decay
  rw [if_neg (not_le.mpr hpos)]
  have hn : (0 : ℚ) ≤ (t.vehicles : ℚ) := Nat.cast_nonneg _
  refine max_lt hpos ?_
  unfold DECAY_CO2
  nlinarith

theorem green_step_co2_zero (t : SimState) (hg : t.is_red = false)
    (hb : t.baseline_co2 = 0) (hz : t.level_co2 = 0) :
    (update_state t (1/10)).level_co2 = 0 := by
  rw [update_state_green_co2 t hg, hb, hz]
  unfold decay
  rw [if_pos le_rfl]

theorem green_step_co2_bound (t : SimState) (hg : t.is_red = false)
    (hb : t.baseline_co2 = 0) :
    (update_state t (1/10)).level_co2 ≤ max 0 (t.level_co2 - 11/100) := by
  rw [update_state_green_co2 t hg, hb]
  unfold decay
  split
  · exact le_max_left _ _
  · refine max_le (le_max_left _ _) (le_max_of_le_right ?_)
    have hn : (0 : ℚ) ≤ (t.vehicles : ℚ) := Nat.cast_nonneg _
    unfold DECAY_CO2
    nlinarith

theorem green_iter_co2_bound (s : SimState) (hg : s.is_red = false)
    (hb : s.baseline_co2 = 0) (k : ℕ) :
    ((fun t => update_state t (1/10))^[k] s).level_co2 ≤
      max 0 (s.level_co2 - (k : ℚ) * (11/100)) := by
  induction k with
  | zero => simp
  | succ k ih =>
    rw [Function.iterate_succ_apply']
    have hfix := green_iter_fixed s k
    have hstep := green_step_co2_bound _ (hfix.1.trans hg) (hfix.2.1.trans hb)
    refine le_trans hstep (max_le (le_max_left _ _) ?_)
    rcases le_or_lt (s.level_co2 - (k : ℚ) * (11/100)) 0 with h | h
    · have h0 : ((fun t => update_state t (1/10))^[k] s).level_co2 ≤ 0 :=
        le_trans ih (max_le le_rfl h)
      refine le_trans ?_ (le_max_left _ _)
      linarith
    · rw [max_eq_right h.le] at ih
      refine le_trans ?_ (le_max_right _ _)
      push_cast
      linarith

/-- C4: in the green phase with `co2Level = 50`, repeated
`update_state · 0.1` calls keep `co2Level` at or above the zero baseline,
never increase it, strictly decrease it while it is positive, keep it at
0 once it reaches 0, and drive it all the way down to 0 (it is exactly 0
after 500 steps). -/
theorem green_co2_monotone (s : SimState) (hg : s.is_red = false)
    (hb : s.baseline_co2 = 0) (hstart : s.level_co2 = 50)
    (hveh : s.vehicles ≤ 99) :
    (∀ k, 0 ≤ ((fun t => update_state t (1/10))^[k] s).level_co2) ∧
    (∀ k, ((fun t => update_state t (1/10))^[k+1] s).level_co2 ≤
          ((fun t => update_state t (1/10))^[k] s).level_co2) ∧
    (∀ k, 0 < ((fun t => update_state t (1/10))^[k] s).level_co2 →
          ((fun t => update_state t (1/10))^[k+1] s).level_co2 <
          ((fun t => update_state t (1/10))^[k] s).level_co2) ∧
    (∀ k, ((fun t => update_state t (1/10))^[k] s).level_co2 = 0 →
          ((fun t => update_state t (1/10))^[k+1] s).level_co2 = 0) ∧
    ((fun t => update_state t (1/10))^[500] s).level_co2 = 0 := by
  have hfix := green_iter_fixed s
  have hnn : ∀ k, 0 ≤ ((fun t => update_state t (1/10))^[k] s).level_co2 := by
    intro k
    cases k with
    | zero => rw [Function.iterate_zero_apply, hstart]; norm_num
    | succ k =>
      rw [Function.iterate_succ_apply']
      exact update_state_co2_nonneg _ _ ((hfix k).2.1.trans hb)
  refine ⟨hnn, ?_, ?_, ?_, ?_⟩
  · intro k
    rw [Function.iterate_succ_apply']
    exact green_step_co2_le _ ((hfix k).1.trans hg) ((hfix k).2.1.trans hb) (hnn k)
  · intro k hpos
    rw [Function.iterate_succ_apply']
    exact green_step_co2_lt _ ((hfix k).1.trans hg) ((hfix k).2.1.trans hb) hpos
  · intro k hz
    rw [Function.iterate_succ_apply']
    exact green_step_co2_zero _ ((hfix k).1.trans hg) ((hfix k).2.1.trans hb) hz
  · have hbnd := green_iter_co2_bound s hg hb 500
    rw [hstart] at hbnd
    have : max 0 ((50 : ℚ) - (500 : ℕ) * (11/100)) = 0 := by norm_num
    rw [this] at hbnd
    exact le_antisymm hbnd (hnn 500)

/-- Witness for C4 at a concrete green state with 12 vehicles: after 500
steps of `update_state · 0.1` the CO2 level is exactly 0. -/
theorem green_co2_monotone_witness :
    ((fun t => update_state t (1/10))^[500]
      { initialized := true, is_red := false, vehicles := 12,
        level_co2 := 50, level_co := 0, level_o2 := 100, baseline_co2 := 0,
        baseline_co := 0, baseline_o2 := 100 }).level_co2 = 0 :=
  (green_co2_monotone _ rfl rfl rfl (by norm_num)).2.2.2.2

/-- C5: in the red phase with more than 10 vehicles, one
`update_state · 0.1` call strictly increases `co2Level` and `coLevel`,
never increases `o2Level`, strictly decreases `o2Level` while it is
positive, and keeps `o2Level` at exactly 0 once it has reached 0. -/
theorem red_step_monotone (s : SimState) (hred : s.is_red = true)
    (hveh : 10 < s.vehicles) (ho2l : 0 ≤ s.level_o2) (ho2u : s.level_o2 ≤ 100) :
    s.level_co2 < (update_state s (1/10)).level_co2 ∧
    s.level_co < (update_state s (1/10)).level_co ∧
    (update_state s (1/10)).level_o2 ≤ s.level_o2 ∧
    (0 < s.level_o2 → (update_state s (1/10)).level_o2 < s.level_o2) ∧
    (s.level_o2 = 0 → (update_state s (1/10)).level_o2 = 0) := by
  have hn : (11 : ℚ) ≤ (s.vehicles : ℚ) := by exact_mod_cast hveh
  simp only [update_state, hred, if_true, clamp, CO2_PER_VEH, CO_PER_VEH,
    O2_CONSUME_PER_VEH, SLOW_DECAY]
  refine ⟨?_, ?_, ?_, ?_, ?_⟩
  · exact lt_of_lt_of_le (by nlinarith) (le_max_right _ _)
  · exact lt_of_lt_of_le (by nlinarith) (le_max_right _ _)
  · exact max_le ho2l (le_trans (min_le_right _ _) (by nlinarith))
  · intro hpos
    exact max_lt hpos (lt_of_le_of_lt (min_le_right _ _) (by nlinarith))
  · intro hz
    rw [hz]
    exact max_eq_left (le_trans (min_le_right _ _) (by nlinarith))

/-- Witness for C5 at the initial session state (red, 12 vehicles). -/
theorem red_step_monotone_witness :
    ({ initialized := true, is_red := true, vehicles := 12, level_co2 := 0,
       level_co := 0, level_o2 := 100, baseline_co2 := 0, baseline_co := 0,
       baseline_o2 := 100 } : SimState).level_co2 <
    (update_state
      { initialized := true, is_red := true, vehicles := 12, level_co2 := 0,
        level_co := 0, level_o2 := 100, baseline_co2 := 0, baseline_co := 0,
        baseline_o2 := 100 } (1/10)).level_co2 :=
  (red_step_monotone _ rfl (by norm_num) (by norm_num) (by norm_num)).1

end Emissions
